import Mathlib

/-!
# FreeRADIUS: EAP-AKA process module section table and the winbind module

A shallow embedding of

* `src/lib/server/virtual_servers.h` (the `virtual_server_compile_t` record),
* `src/process/eap_aka/base.c` (`compile_list`, `mod_instantiate`),
* `src/modules/rlm_winbind/rlm_winbind.c` (`winbind_check_group`,
  `mod_authorize`, `mod_authenticate`),

followed by the properties proved about them.

Conventions.  A C pointer that may be `NULL` is an `Option`.  A C string is a
`List Char` (no embedded NUL).  Functions of other translation units
(libwbclient, the template expander, the connection pool, ...) are parameters
of the embedding, so every theorem holds for all their behaviours.
Log output (`REDEBUG`, `WARN`, ...) has no effect on results and is left out.
-/

set_option autoImplicit false

/-! ## `src/lib/server/virtual_servers.h` -/

/-- Module methods which are allowed in virtual servers
(`virtual_server_method_t`). -/
structure virtual_server_method_t where
  name1 : Option String
  name2 : Option String
deriving DecidableEq, Repr

/-- Address of a default-actions table (`unlang_mod_actions_t const *`).  The
tables live in another translation unit; only the symbol is visible here. -/
inductive unlang_mod_actions_ref where
  | mod_actions_authorize
deriving DecidableEq, Repr

/-- Processing sections which are allowed in this virtual server
(`virtual_server_compile_t`).  `offset` and `instruction` are `size_t` byte
offsets produced by `offsetof`; the layout of the instance structure is not
part of this file, so an offset is kept as the member path it designates and
`none` is the zero that C gives an omitted designated initialiser. -/
structure virtual_server_compile_t where
  name1 : Option String
  name2 : Option String
  offset : Option String := none
  dont_cache : Bool := false
  instruction : Option String := none
  actions : Option unlang_mod_actions_ref := none
  methods : Option (List virtual_server_method_t) := none
deriving DecidableEq, Repr

/-- The macro `COMPILE_TERMINATOR`: `{ .name1 = NULL, .name2 = NULL }`. -/
def COMPILE_TERMINATOR : virtual_server_compile_t :=
  { name1 := none, name2 := none }

/-- The entries of a section table that a walk `for (i = 0; list[i].name1; i++)`
visits: everything before the first entry whose `name1` is `NULL`. -/
def compile_entries (list : List virtual_server_compile_t) : List virtual_server_compile_t :=
  list.takeWhile (fun e => e.name1.isSome)

/-- Modelled from the spec: the ProtocolModule contract (`fr_process_module_t`,
whose declaration is missing), as far as instantiation uses it: the section
table `compile_list` and the `instantiate` callback, which returns its `int`
result and the instance data it leaves. -/
structure fr_process_module_t (Conf : Type) where
  compile_list : List virtual_server_compile_t
  instantiate : Conf → Int × Conf

/-! ## `src/process/eap_aka/base.c` -/

namespace process_eap_aka

open unlang_mod_actions_ref (mod_actions_authorize)

/-- The array `compile_list[]`, terminator included. -/
def compile_list : List virtual_server_compile_t := [
  { name1 := some "recv", name2 := some "Identity-Response",
    actions := some mod_actions_authorize,
    offset := some "actions.recv_common_identity_response" },
  { name1 := some "send", name2 := some "Identity-Request",
    actions := some mod_actions_authorize,
    offset := some "actions.send_common_identity_request" },
  { name1 := some "send", name2 := some "AKA-Identity-Request",
    actions := some mod_actions_authorize,
    offset := some "actions.send_aka_identity_request" },
  { name1 := some "recv", name2 := some "AKA-Identity-Response",
    actions := some mod_actions_authorize,
    offset := some "actions.recv_aka_identity_response" },
  { name1 := some "send", name2 := some "Challenge-Request",
    actions := some mod_actions_authorize,
    offset := some "actions.send_aka_challenge_request" },
  { name1 := some "recv", name2 := some "Challenge-Response",
    actions := some mod_actions_authorize,
    offset := some "actions.recv_aka_challenge_response" },
  { name1 := some "send", name2 := some "Reauthentication-Request",
    actions := some mod_actions_authorize,
    offset := some "actions.send_common_reauthentication_request" },
  { name1 := some "recv", name2 := some "Reauthentication-Response",
    actions := some mod_actions_authorize,
    offset := some "actions.recv_common_reauthentication_response" },
  { name1 := some "recv", name2 := some "Client-Error",
    actions := some mod_actions_authorize,
    offset := some "actions.recv_common_client_error" },
  { name1 := some "recv", name2 := some "Authentication-Reject",
    actions := some mod_actions_authorize,
    offset := some "actions.recv_aka_authentication_reject" },
  { name1 := some "recv", name2 := some "Synchronization-Failure",
    actions := some mod_actions_authorize,
    offset := some "actions.recv_aka_synchronization_failure" },
  { name1 := some "send", name2 := some "Failure-Notification",
    actions := some mod_actions_authorize,
    offset := some "actions.send_common_failure_notification" },
  { name1 := some "recv", name2 := some "Failure-Notification-ACK",
    actions := some mod_actions_authorize,
    offset := some "actions.recv_common_failure_notification_ack" },
  { name1 := some "send", name2 := some "Success-Notification",
    actions := some mod_actions_authorize,
    offset := some "actions.send_common_success_notification" },
  { name1 := some "recv", name2 := some "Success-Notification-ACK",
    actions := some mod_actions_authorize,
    offset := some "actions.recv_common_success_notification_ack" },
  { name1 := some "send", name2 := some "EAP-Success",
    actions := some mod_actions_authorize,
    offset := some "actions.send_eap_success" },
  { name1 := some "send", name2 := some "EAP-Failure",
    actions := some mod_actions_authorize,
    offset := some "actions.send_eap_failure" },
  { name1 := some "store", name2 := some "session",
    actions := some mod_actions_authorize,
    offset := some "actions.store_session" },
  { name1 := some "load", name2 := some "session",
    actions := some mod_actions_authorize,
    offset := some "actions.load_session" },
  { name1 := some "clear", name2 := some "session",
    actions := some mod_actions_authorize,
    offset := some "actions.clear_session" },
  { name1 := some "store", name2 := some "pseudonym",
    actions := some mod_actions_authorize,
    offset := some "actions.store_pseudonym" },
  { name1 := some "load", name2 := some "pseudonym",
    actions := some mod_actions_authorize,
    offset := some "actions.load_pseudonym" },
  { name1 := some "clear", name2 := some "pseudonym",
    actions := some mod_actions_authorize,
    offset := some "actions.clear_pseudonym" },
  COMPILE_TERMINATOR ]

/-- The enumerators of other headers that `mod_instantiate` names.  Their
numeric values are declared outside this file, so they are parameters. -/
structure enum_values where
  FR_EAP_METHOD_AKA : Int
  AKA_SIM_NO_ID_REQ : Int
  AKA_SIM_INIT_ID_REQ : Int
deriving DecidableEq, Repr

/-- The members of `eap_aka_sim_process_conf_t` that `mod_instantiate`
touches (`type` is a keyword, hence `type_`). -/
structure eap_aka_sim_process_conf_t where
  type_ : Int
  request_identity : Int
deriving DecidableEq, Repr

/-- The function `mod_instantiate`: the return value and the instance data
after the call. -/
def mod_instantiate (c : enum_values) (inst : eap_aka_sim_process_conf_t) :
    Int × eap_aka_sim_process_conf_t :=
  let inst := { inst with type_ := c.FR_EAP_METHOD_AKA }
  let inst :=
    if inst.request_identity = c.AKA_SIM_INIT_ID_REQ then
      { inst with request_identity := c.AKA_SIM_NO_ID_REQ }
    else inst
  (0, inst)

end process_eap_aka

/-- The module structure `process_eap_aka` of `base.c`: its `.instantiate` and
`.compile_list` members. -/
def process_eap_aka (c : process_eap_aka.enum_values) :
    fr_process_module_t process_eap_aka.eap_aka_sim_process_conf_t :=
  { compile_list := process_eap_aka.compile_list,
    instantiate := process_eap_aka.mod_instantiate c }

/-! ## Result codes (`rlm_rcode_t`) -/

/-- The module return codes.  `RETURN_MODULE_X` stores `RLM_MODULE_X` in
`*p_result` and leaves the function; the embedding returns the stored code. -/
inductive rlm_rcode_t where
  | RLM_MODULE_REJECT
  | RLM_MODULE_FAIL
  | RLM_MODULE_OK
  | RLM_MODULE_HANDLED
  | RLM_MODULE_INVALID
  | RLM_MODULE_DISALLOW
  | RLM_MODULE_NOTFOUND
  | RLM_MODULE_NOOP
  | RLM_MODULE_UPDATED
deriving DecidableEq, Repr

/-! ## `src/modules/rlm_winbind/rlm_winbind.c` -/

namespace rlm_winbind

/-- A dictionary attribute, identified by its dictionary and its name as in
`rlm_winbind_dict_attr[]`. -/
structure fr_dict_attr_t where
  dict : String
  name : String
deriving DecidableEq, Repr

/-- Entry `Auth-Type` of `rlm_winbind_dict_attr[]`. -/
def attr_auth_type : fr_dict_attr_t := { dict := "freeradius", name := "Auth-Type" }
/-- Entry `User-Name` of `rlm_winbind_dict_attr[]`. -/
def attr_user_name : fr_dict_attr_t := { dict := "radius", name := "User-Name" }
/-- Entry `User-Password` of `rlm_winbind_dict_attr[]`. -/
def attr_user_password : fr_dict_attr_t := { dict := "radius", name := "User-Password" }
/-- Entry `Expr-Bool-Enum` of `rlm_winbind_dict_attr[]`. -/
def attr_expr_bool_enum : fr_dict_attr_t := { dict := "freeradius", name := "Expr-Bool-Enum" }

/-- An attribute-value pair: its attribute and its string value. -/
structure fr_pair_t where
  da : fr_dict_attr_t
  vp_strvalue : List Char
deriving DecidableEq, Repr

/-- The member `vp_length`: the length of the value. -/
def fr_pair_t.vp_length (vp : fr_pair_t) : Nat := vp.vp_strvalue.length

/-- The part of `request_t` the module reads. -/
structure request_t where
  request_pairs : List fr_pair_t
deriving DecidableEq, Repr

/-- A template (`tmpl_t`), known by its name. -/
structure tmpl_t where
  name : String
deriving DecidableEq, Repr

/-- A dictionary enumeration value (`fr_dict_enum_value_t`). -/
structure fr_dict_enum_value_t where
  name : String
deriving DecidableEq, Repr

/-- A connection pool handle (`fr_pool_t *`). -/
structure fr_pool_t where
  id : Nat
deriving DecidableEq, Repr

/-- A libwbclient context (`struct wbcContext *`). -/
structure wbcContext where
  id : Nat
deriving DecidableEq, Repr

/-- The libwbclient error codes (`wbcErr`). -/
inductive wbcErr where
  | WBC_ERR_SUCCESS
  | WBC_ERR_NOT_IMPLEMENTED
  | WBC_ERR_UNKNOWN_FAILURE
  | WBC_ERR_NO_MEMORY
  | WBC_ERR_INVALID_SID
  | WBC_ERR_INVALID_PARAM
  | WBC_ERR_WINBIND_NOT_AVAILABLE
  | WBC_ERR_DOMAIN_NOT_FOUND
  | WBC_ERR_INVALID_RESPONSE
  | WBC_ERR_NSS_ERROR
  | WBC_ERR_AUTH_ERROR
  | WBC_ERR_UNKNOWN_USER
  | WBC_ERR_UNKNOWN_GROUP
  | WBC_ERR_PWD_CHANGE_FAILED
deriving DecidableEq, Repr

/-- The module instance (`rlm_winbind_t`), members used by the functions
below. -/
structure rlm_winbind_t where
  wb_username : Option tmpl_t
  wb_domain : Option tmpl_t
  group_username : Option tmpl_t
  group_add_domain : Bool
  auth_type : Option fr_dict_enum_value_t
  wb_pool : Option fr_pool_t
deriving DecidableEq, Repr

/-- Functions of other translation units, each given by its return value as
a function of its arguments.

* `fr_pair_find_by_da list da`: the pair found, `none` for `NULL`
  (the `prev` argument is always `NULL` here);
* `tmpl_aexpand request vpt`: `none` for a negative return, otherwise the
  expanded string, whose length is the value returned;
* `fr_pool_connection_get pool request`: the connection, `none` for `NULL`;
* `wbcCtxGetGroups ctx username`: the error code and the array of group ids
  (`num_groups` is its length);
* `wbcCtxGetgrgid ctx gid`: the error code and `gr_name` of the group;
* `do_auth_wbclient_pap inst request password`: its `int` result;
* `module_rlm_section_type_set request da enumv`: its `bool` result. -/
structure externs where
  fr_pair_find_by_da : List fr_pair_t → fr_dict_attr_t → Option fr_pair_t
  tmpl_aexpand : request_t → tmpl_t → Option (List Char)
  fr_pool_connection_get : Option fr_pool_t → request_t → Option wbcContext
  wbcCtxGetGroups : wbcContext → List Char → wbcErr × List Nat
  wbcCtxGetgrgid : wbcContext → Nat → wbcErr × List Char
  do_auth_wbclient_pap : rlm_winbind_t → request_t → fr_pair_t → Int
  module_rlm_section_type_set : request_t → fr_dict_attr_t → fr_dict_enum_value_t → Bool

/-- A call made to one of the two functions whose invocation the properties
below observe. -/
inductive ext_call where
  | do_auth_wbclient_pap (password : fr_pair_t)
  | module_rlm_section_type_set (da : fr_dict_attr_t) (enumv : fr_dict_enum_value_t)
deriving DecidableEq, Repr

/-- The backslash character. -/
def BACKSLASH : Char := Char.ofNat 92

/-- The libc function `tolower` on a character, as a number. -/
def tolower (c : Char) : Int := (c.toLower.toNat : Int)

/-- The libc function `strcasecmp`; the end of a list is the terminating
NUL. -/
def strcasecmp : List Char → List Char → Int
  | [], [] => 0
  | [], b :: _ => 0 - tolower b
  | a :: _, [] => tolower a
  | a :: s1, b :: s2 =>
    if tolower a = tolower b then strcasecmp s1 s2 else tolower a - tolower b

/-- The libc function `strchr`, as the index of the first occurrence. -/
def strchr : List Char → Char → Option Nat
  | [], _ => none
  | a :: s, c => if a = c then some 0 else (strchr s c).map (fun i => i + 1)

/-- The body of the loop of `winbind_check_group` from "Find the backslash in
the returned group name" to the assignment of `group_name`: the plain group
name and the new value of `backslash`. -/
def find_group_name (backslash : Nat) (gr_name : List Char) : List Char × Nat :=
  if backslash < gr_name.length ∧ gr_name.get? backslash = some BACKSLASH then
    (gr_name.drop (backslash + 1), backslash)
  else
    match strchr gr_name BACKSLASH with
    | some i =>
      -- group_name = gr_name + i + 1; backslash = group_name - (gr_name - 1)
      (gr_name.drop (i + 1), (i + 1) + 1)
    | none => (gr_name, backslash)

/-- The loop `for (i = 0; i < num_groups; i++)` of `winbind_check_group`,
over the remaining group ids, returning the final `rcode`. -/
def check_groups_loop (x : externs) (wb_ctx : wbcContext) (name : List Char) :
    Nat → List Nat → Bool
  | _, [] => false
  | backslash, gid :: rest =>
    match x.wbcCtxGetgrgid wb_ctx gid with
    | (wbcErr.WBC_ERR_SUCCESS, gr_name) =>
      let r := find_group_name backslash gr_name
      if strcasecmp r.1 name = 0 then true
      else check_groups_loop x wb_ctx name r.2 rest
    | (_, _) => check_groups_loop x wb_ctx name backslash rest

/-- The part of `winbind_check_group` from "Work out what username to check
groups for" to the assignment of `username`: `none` when an expansion fails
(`goto error`), otherwise `domain_len` and `username`. -/
def search_username (x : externs) (inst : rlm_winbind_t) (request : request_t)
    (vp_username : fr_pair_t) : Option (Nat × List Char) :=
  -- Include the domain in the username?
  let domain_r : Option (Option (List Char)) :=
    match inst.group_add_domain, inst.wb_domain with
    | true, some vpt =>
      match x.tmpl_aexpand request vpt with
      | none => none
      | some d => some (some d)
    | _, _ => some none
  match domain_r with
  | none => none
  | some domain =>
    let domain_len : Nat := match domain with | some d => d.length | none => 0
    -- Sort out what User-Name we are going to use.
    let user_r : Option (List Char) :=
      match inst.group_username with
      | some vpt => x.tmpl_aexpand request vpt
      | none => some vp_username.vp_strvalue
    match user_r with
    | none => none
    | some user =>
      match domain with
      | some d => some (domain_len, d ++ [BACKSLASH] ++ user)
      | none => some (domain_len, user)

/-- The function `winbind_check_group`.  Releasing the connection and freeing
the buffers at `finish:` and `error:` do not change `rcode`. -/
def winbind_check_group (x : externs) (inst : rlm_winbind_t) (request : request_t)
    (name : List Char) : Bool :=
  match x.fr_pair_find_by_da request.request_pairs attr_user_name with
  | none => false
  | some vp_username =>
    match search_username x inst request vp_username with
    | none => false
    | some (domain_len, username) =>
      -- Get a libwbclient connection from the pool
      match x.fr_pool_connection_get inst.wb_pool request with
      | none => false
      | some wb_ctx =>
        match x.wbcCtxGetGroups wb_ctx username with
        | (wbcErr.WBC_ERR_SUCCESS, wb_groups) =>
          if wb_groups.length = 0 then false
          else
            let backslash : Nat := if domain_len > 0 then domain_len - 1 else 0
            check_groups_loop x wb_ctx name backslash wb_groups
        | (wbcErr.WBC_ERR_WINBIND_NOT_AVAILABLE, _) => false
        | (wbcErr.WBC_ERR_DOMAIN_NOT_FOUND, _) => false
        | (wbcErr.WBC_ERR_UNKNOWN_USER, _) => false
        | (_, _) => false

/-- The function `mod_authorize`: the code stored in `*p_result` and the
calls made to `module_rlm_section_type_set`. -/
def mod_authorize (x : externs) (inst : rlm_winbind_t) (request : request_t) :
    rlm_rcode_t × List ext_call :=
  match x.fr_pair_find_by_da request.request_pairs attr_user_password with
  | none => (rlm_rcode_t.RLM_MODULE_NOOP, [])
  | some _ =>
    match inst.auth_type with
    | none => (rlm_rcode_t.RLM_MODULE_NOOP, [])
    | some auth_type =>
      if ! x.module_rlm_section_type_set request attr_auth_type auth_type then
        (rlm_rcode_t.RLM_MODULE_NOOP, [ext_call.module_rlm_section_type_set attr_auth_type auth_type])
      else
        (rlm_rcode_t.RLM_MODULE_OK, [ext_call.module_rlm_section_type_set attr_auth_type auth_type])

/-- The function `mod_authenticate`: the code stored in `*p_result` and the
calls made to `do_auth_wbclient_pap`. -/
def mod_authenticate (x : externs) (inst : rlm_winbind_t) (request : request_t) :
    rlm_rcode_t × List ext_call :=
  let username := x.fr_pair_find_by_da request.request_pairs attr_user_name
  let password := x.fr_pair_find_by_da request.request_pairs attr_user_password
  match username with
  | none => (rlm_rcode_t.RLM_MODULE_INVALID, [])
  | some _ =>
    match password with
    | none => (rlm_rcode_t.RLM_MODULE_INVALID, [])
    | some password =>
      if password.vp_length = 0 then (rlm_rcode_t.RLM_MODULE_INVALID, [])
      else if x.do_auth_wbclient_pap inst request password = 0 then
        (rlm_rcode_t.RLM_MODULE_OK, [ext_call.do_auth_wbclient_pap password])
      else
        (rlm_rcode_t.RLM_MODULE_REJECT, [ext_call.do_auth_wbclient_pap password])

/-! ### Group membership, stated independently of the loop -/

/-- The plain name of a group: what follows the first backslash of `gr_name`,
or all of it when there is none. -/
def group_plain_name (gr_name : List Char) : List Char :=
  match strchr gr_name BACKSLASH with
  | some i => gr_name.drop (i + 1)
  | none => gr_name

/-- Group id `gid` resolves to a group whose plain name is `name`, ignoring
case. -/
def group_matches (x : externs) (wb_ctx : wbcContext) (name : List Char) (gid : Nat) : Bool :=
  match x.wbcCtxGetgrgid wb_ctx gid with
  | (wbcErr.WBC_ERR_SUCCESS, gr_name) => decide (strcasecmp (group_plain_name gr_name) name = 0)
  | (_, _) => false

/-- The user `username` is in the group `name`: winbind returns the user's
groups and one of them resolves to a group of that plain name. -/
def user_in_group (x : externs) (wb_ctx : wbcContext) (username name : List Char) : Bool :=
  match x.wbcCtxGetGroups wb_ctx username with
  | (wbcErr.WBC_ERR_SUCCESS, wb_groups) => wb_groups.any (group_matches x wb_ctx name)
  | (_, _) => false

/-- The C value of a `bool` result. -/
def bool_to_int (b : Bool) : Int := if b then 1 else 0

/-! ### A concrete environment -/

/-- A small directory: user `DOM\alice` has groups 10 and 11, group 10 is
`DOM\staff`, group 11 is `DOM\Admins`; the password check accepts only the
password `secret`; setting Auth-Type always succeeds. -/
def sample_externs : externs where
  fr_pair_find_by_da := fun l da => l.find? (fun vp => decide (vp.da = da))
  tmpl_aexpand := fun _ vpt => if vpt.name = "domain" then some "DOM".toList else none
  fr_pool_connection_get := fun pool _ => pool.map (fun p => { id := p.id })
  wbcCtxGetGroups := fun _ username =>
    if username = "DOM".toList ++ [BACKSLASH] ++ "alice".toList then
      (wbcErr.WBC_ERR_SUCCESS, [10, 11])
    else (wbcErr.WBC_ERR_DOMAIN_NOT_FOUND, [])
  wbcCtxGetgrgid := fun _ gid =>
    if gid = 10 then (wbcErr.WBC_ERR_SUCCESS, "DOM".toList ++ [BACKSLASH] ++ "staff".toList)
    else if gid = 11 then (wbcErr.WBC_ERR_SUCCESS, "DOM".toList ++ [BACKSLASH] ++ "Admins".toList)
    else (wbcErr.WBC_ERR_UNKNOWN_GROUP, [])
  do_auth_wbclient_pap := fun _ _ password =>
    if password.vp_strvalue = "secret".toList then 0 else -1
  module_rlm_section_type_set := fun _ _ _ => true

/-- An instance with a domain template, a pool and a resolved `auth_type`. -/
def sample_inst : rlm_winbind_t :=
  { wb_username := some { name := "username" }, wb_domain := some { name := "domain" },
    group_username := none, group_add_domain := true,
    auth_type := some { name := "winbind" }, wb_pool := some { id := 1 } }

/-- A request of user `alice` with password `secret`. -/
def sample_request : request_t :=
  { request_pairs := [ { da := attr_user_name, vp_strvalue := "alice".toList },
                       { da := attr_user_password, vp_strvalue := "secret".toList } ] }

/-- A request without a User-Name. -/
def request_no_user : request_t :=
  { request_pairs := [ { da := attr_user_password, vp_strvalue := "secret".toList } ] }

end rlm_winbind

/-! ## Section compiler, dispatcher and instantiation

`virtual_servers.h` only declares `virtual_server_compile_sections` and
`virtual_server_push`; their bodies are in another file.  The definitions of
this section follow the specification of the engine. -/

namespace virtual_server

/-- Modelled from the spec: a configured processing section of the shape
`<name1> <name2> { ... }` inside a virtual server (the configuration tree type
`CONF_SECTION` is missing): its two names and the module-method calls found in
its policy body. -/
structure conf_section where
  name1 : String
  name2 : String
  calls : List virtual_server_method_t
deriving DecidableEq, Repr

/-- Modelled from the spec: the default-actions table `unlang_mod_actions_t`
(missing), "per-section fallback result codes applied when policy does not
explicitly produce one": the fallback result it supplies. -/
structure unlang_mod_actions_t where
  fallback : rlm_rcode_t
deriving DecidableEq, Repr

/-- Modelled from the spec: a CompiledSection, "the executable policy graph
plus its resolved default-actions table", stored together with "the raw
configuration-section reference" (the graph type is missing; a graph is kept
as the calls it was compiled from). -/
structure compiled_section where
  graph : List virtual_server_method_t
  actions : Option unlang_mod_actions_ref
  cs : conf_section
deriving DecidableEq, Repr

/-- Modelled from the spec: the failures of instantiation (missing):
a disallowed module-method call naming the offending call and its section,
and a failing `instantiate` callback of the protocol module. -/
inductive instantiate_error where
  | MethodNotPermitted (call : virtual_server_method_t) (name1 name2 : String)
  | CallbackFailed (rc : Int)
deriving DecidableEq, Repr

/-- Modelled from the spec: the cache slots of a virtual server's instance
data (the instance structure is missing), addressed by the cache-slot
descriptor `offset` of a `virtual_server_compile_t`; `none` is a null slot. -/
abbrev cache_slots := Option String → Option compiled_section

/-- Modelled from the spec: instance data before instantiation (missing):
every slot is null. -/
def cache_slots_null : cache_slots := fun _ => none

/-- Modelled from the spec: step 4 of the Section Compiler (missing), "store
the compiled pointer and the raw configuration-section reference into the
VirtualServer's instance data at the slot identified by the spec's cache-slot
descriptor". -/
def cache_store (slots : cache_slots) (offset : Option String) (c : compiled_section) :
    cache_slots :=
  fun o => if o = offset then some c else slots o

/-- Modelled from the spec: step 2 of the Section Compiler (missing): "every
module-method call it contains is checked against the union of the protocol's
method allow-list and the SectionSpec's own allow-list". -/
def method_permitted (protocol_methods : List virtual_server_method_t)
    (entry : virtual_server_compile_t) (call : virtual_server_method_t) : Bool :=
  decide (call ∈ protocol_methods) || decide (call ∈ entry.methods.getD [])

/-- Modelled from the spec: steps 2 and 3 of the Section Compiler (missing):
compile the body of a present section, failing with `MethodNotPermitted` on a
disallowed call, and bind the entry's default-actions table to the result. -/
def compile_section (protocol_methods : List virtual_server_method_t)
    (entry : virtual_server_compile_t) (cs : conf_section) :
    Except instantiate_error compiled_section :=
  match cs.calls.find? (fun call => ! method_permitted protocol_methods entry call) with
  | some call => Except.error (instantiate_error.MethodNotPermitted call cs.name1 cs.name2)
  | none => Except.ok { graph := cs.calls, actions := entry.actions, cs := cs }

/-- Modelled from the spec: step 1 of the Section Compiler (missing): "locate
a matching configuration subsection by (name1, name2)". -/
def find_section (server : List conf_section) (entry : virtual_server_compile_t) :
    Option conf_section :=
  server.find? (fun cs => decide (some cs.name1 = entry.name1) && decide (some cs.name2 = entry.name2))

/-- Modelled from the spec: the Section Compiler over the entries of a table,
"in table order" (missing): an absent section leaves its slot as it is, a
present one is compiled, any failure aborts, and the result is stored "unless
the spec marks the section non-cacheable". -/
def compile_sections_loop (server : List conf_section)
    (protocol_methods : List virtual_server_method_t) :
    List virtual_server_compile_t → cache_slots → Except instantiate_error cache_slots
  | [], slots => Except.ok slots
  | entry :: rest, slots =>
    match find_section server entry with
    | none => compile_sections_loop server protocol_methods rest slots
    | some cs =>
      match compile_section protocol_methods entry cs with
      | Except.error err => Except.error err
      | Except.ok c =>
        if entry.dont_cache then compile_sections_loop server protocol_methods rest slots
        else compile_sections_loop server protocol_methods rest (cache_store slots entry.offset c)

/-- Modelled from the spec: `virtual_server_compile_sections` (declared in
`virtual_servers.h`, body missing): the Section Compiler run over a section
table up to its terminator. -/
def virtual_server_compile_sections (server : List conf_section)
    (list : List virtual_server_compile_t) (protocol_methods : List virtual_server_method_t)
    (slots : cache_slots) : Except instantiate_error cache_slots :=
  compile_sections_loop server protocol_methods (compile_entries list) slots

/-- Modelled from the spec: what a completed push reports (missing): the
result code handed back to the caller (`none` when nothing defines one) and
how many times the graph interpreter was invoked. -/
structure push_result where
  rcode : Option rlm_rcode_t
  interpreter_calls : Nat
deriving DecidableEq, Repr

/-- Modelled from the spec: the Dispatcher's `push`, run to completion
(`virtual_server_push` is declared in `virtual_servers.h`, body missing).
`tables` resolves a default-actions symbol and `interpret` is the external
graph interpreter, `none` when the graph never set a result; `top_frame` only
marks the pushed frame as a boundary.  A null slot
yields the entry's default action without the interpreter; otherwise the
graph runs and "if the graph never explicitly set one, the cached
default-actions table for that section supplies it". -/
def virtual_server_push {Request : Type} (tables : unlang_mod_actions_ref → unlang_mod_actions_t)
    (interpret : List virtual_server_method_t → Request → Option rlm_rcode_t)
    (slots : cache_slots) (entry : virtual_server_compile_t) (request : Request)
    (_top_frame : Bool) : push_result :=
  match slots entry.offset with
  | none =>
    { rcode := entry.actions.map (fun r => (tables r).fallback), interpreter_calls := 0 }
  | some c =>
    match interpret c.graph request with
    | some rc => { rcode := some rc, interpreter_calls := 1 }
    | none => { rcode := c.actions.map (fun r => (tables r).fallback), interpreter_calls := 1 }

/-- Modelled from the spec: the instance data of a virtual server (the
structure declaration is missing): the configuration members of its protocol
module and the cache slots. -/
structure vs_instance (Conf : Type) where
  conf : Conf
  slots : cache_slots

/-- Modelled from the spec: `instantiate()` of the Lifecycle Manager for one
virtual server of protocol module `M` (missing): it "runs the Section
Compiler, then invokes the ProtocolModule's `instantiate` callback", and is
"fatal on compiler or callback failure". -/
def instantiate {Conf : Type} (M : fr_process_module_t Conf) (server : List conf_section)
    (protocol_methods : List virtual_server_method_t) (conf : Conf) :
    Except instantiate_error (vs_instance Conf) :=
  match virtual_server_compile_sections server M.compile_list protocol_methods
      cache_slots_null with
  | Except.error err => Except.error err
  | Except.ok slots =>
    let r := M.instantiate conf
    if r.1 < 0 then Except.error (instantiate_error.CallbackFailed r.1)
    else Except.ok { conf := r.2, slots := slots }

/-- The section named by `entry` is not among the configured sections. -/
def section_omitted (server : List conf_section) (entry : virtual_server_compile_t) : Prop :=
  ∀ cs ∈ server, ¬ (some cs.name1 = entry.name1 ∧ some cs.name2 = entry.name2)

/-! ### Concrete protocol modules and configurations -/

end virtual_server

/-! # Properties -/

namespace process_eap_aka

/-- The walk over `compile_list` visits 23 entries. -/
theorem compile_entries_length : (compile_entries compile_list).length = 23 := by decide

/-- No (name1, name2) pair occurs twice among the visited entries. -/
theorem compile_names_nodup :
    ((compile_entries compile_list).map (fun e => (e.name1, e.name2))).Nodup := by decide

/-- C1: in the EAP-AKA section table, any two different positions `i` and `j`
among the 23 entries before the terminator hold entries that differ in `name1`
or in `name2`. -/
theorem compile_list_name_pairs_distinct (i j : Nat) (hi : i < 23) (hj : j < 23)
    (hij : i ≠ j) :
    ∃ a b, (compile_entries compile_list)[i]? = some a ∧
      (compile_entries compile_list)[j]? = some b ∧
      (a.name1 ≠ b.name1 ∨ a.name2 ≠ b.name2) := by
  have hlen := compile_entries_length
  have hi2 : i < (compile_entries compile_list).length := by omega
  have hj2 : j < (compile_entries compile_list).length := by omega
  refine ⟨(compile_entries compile_list)[i], (compile_entries compile_list)[j],
    List.getElem?_eq_getElem hi2, List.getElem?_eq_getElem hj2, ?_⟩
  by_contra hcon
  rw [not_or, not_not, not_not] at hcon
  have hnd := compile_names_nodup
  have hmi : i < ((compile_entries compile_list).map (fun e => (e.name1, e.name2))).length := by
    simpa using hi2
  have hmj : j < ((compile_entries compile_list).map (fun e => (e.name1, e.name2))).length := by
    simpa using hj2
  have heq : ((compile_entries compile_list).map (fun e => (e.name1, e.name2)))[i]
      = ((compile_entries compile_list).map (fun e => (e.name1, e.name2)))[j] := by
    simp only [List.getElem_map, hcon.1, hcon.2]
  exact hij ((List.Nodup.getElem_inj_iff hnd).mp heq)

/-- Positions 0 (`recv Identity-Response`) and 8 (`recv Client-Error`) share
`name1` and differ in `name2`. -/
theorem compile_list_name_pairs_distinct_witness :
    ∃ a b, (compile_entries compile_list)[0]? = some a ∧
      (compile_entries compile_list)[8]? = some b ∧
      (a.name1 ≠ b.name1 ∨ a.name2 ≠ b.name2) :=
  compile_list_name_pairs_distinct 0 8 (by decide) (by decide) (by decide)

/-- C7: each of the 23 entries of the EAP-AKA section table before the
terminator is cache-enabled (`dont_cache` is false) and has its `actions`
field set, to `mod_actions_authorize`. -/
theorem compile_list_actions_set :
    (compile_entries compile_list).length = 23 ∧
    ∀ e ∈ compile_entries compile_list,
      e.dont_cache = false ∧ e.actions = some unlang_mod_actions_ref.mod_actions_authorize := by
  decide

/-- C2: `mod_instantiate` returns 0 for every instance; afterwards
`request_identity` is `AKA_SIM_NO_ID_REQ` if it was `AKA_SIM_INIT_ID_REQ` and
is unchanged otherwise, so (the two enumerators being different) it is never
`AKA_SIM_INIT_ID_REQ`. -/
theorem mod_instantiate_downgrades (c : enum_values) (inst : eap_aka_sim_process_conf_t)
    (hdist : c.AKA_SIM_INIT_ID_REQ ≠ c.AKA_SIM_NO_ID_REQ) :
    (mod_instantiate c inst).1 = 0 ∧
    (inst.request_identity = c.AKA_SIM_INIT_ID_REQ →
      (mod_instantiate c inst).2.request_identity = c.AKA_SIM_NO_ID_REQ) ∧
    (inst.request_identity ≠ c.AKA_SIM_INIT_ID_REQ →
      (mod_instantiate c inst).2.request_identity = inst.request_identity) ∧
    (mod_instantiate c inst).2.request_identity ≠ c.AKA_SIM_INIT_ID_REQ := by
  unfold mod_instantiate
  by_cases h : inst.request_identity = c.AKA_SIM_INIT_ID_REQ
  · simp [h, hdist.symm]
  · simp [h]

/-- An instance configured with `AKA_SIM_INIT_ID_REQ` (here 4, with
`AKA_SIM_NO_ID_REQ` 0) comes out with `AKA_SIM_NO_ID_REQ`. -/
theorem mod_instantiate_downgrades_witness :
    (mod_instantiate { FR_EAP_METHOD_AKA := 23, AKA_SIM_NO_ID_REQ := 0, AKA_SIM_INIT_ID_REQ := 4 }
        { type_ := 0, request_identity := 4 }).2.request_identity = 0 :=
  (mod_instantiate_downgrades
    { FR_EAP_METHOD_AKA := 23, AKA_SIM_NO_ID_REQ := 0, AKA_SIM_INIT_ID_REQ := 4 }
    { type_ := 0, request_identity := 4 } (by decide)).2.1 rfl

end process_eap_aka

namespace rlm_winbind

/-- C3: `mod_authenticate` returns `RLM_MODULE_INVALID`, with no call to
`do_auth_wbclient_pap`, whenever the User-Name is missing, the User-Password
is missing, or the User-Password has length zero; and it returns
`RLM_MODULE_INVALID` in no other case. -/
theorem mod_authenticate_invalid_iff (x : externs) (inst : rlm_winbind_t) (request : request_t) :
    ((x.fr_pair_find_by_da request.request_pairs attr_user_name = none ∨
        x.fr_pair_find_by_da request.request_pairs attr_user_password = none ∨
        ∃ p, x.fr_pair_find_by_da request.request_pairs attr_user_password = some p ∧
          p.vp_length = 0) →
      mod_authenticate x inst request = (rlm_rcode_t.RLM_MODULE_INVALID, [])) ∧
    ((mod_authenticate x inst request).1 = rlm_rcode_t.RLM_MODULE_INVALID →
      (x.fr_pair_find_by_da request.request_pairs attr_user_name = none ∨
        x.fr_pair_find_by_da request.request_pairs attr_user_password = none ∨
        ∃ p, x.fr_pair_find_by_da request.request_pairs attr_user_password = some p ∧
          p.vp_length = 0)) := by
  unfold mod_authenticate
  cases hu : x.fr_pair_find_by_da request.request_pairs attr_user_name with
  | none => simp
  | some u =>
    cases hp : x.fr_pair_find_by_da request.request_pairs attr_user_password with
    | none => simp
    | some p =>
      by_cases hl : p.vp_length = 0
      · simp [hl]
      · by_cases hb : x.do_auth_wbclient_pap inst request p = 0 <;> simp [hl, hb]

/-- A request without User-Name is answered `RLM_MODULE_INVALID` with no call
to the backend. -/
theorem mod_authenticate_invalid_iff_witness :
    mod_authenticate sample_externs sample_inst request_no_user
      = (rlm_rcode_t.RLM_MODULE_INVALID, []) :=
  (mod_authenticate_invalid_iff sample_externs sample_inst request_no_user).1
    (Or.inl (by decide))

/-- C4: for a request with a User-Name and a non-empty User-Password,
`mod_authenticate` calls `do_auth_wbclient_pap` once on that password, returns
`RLM_MODULE_OK` exactly when the call returns 0 and `RLM_MODULE_REJECT` for
every other value, and returns nothing else. -/
theorem mod_authenticate_ok_iff (x : externs) (inst : rlm_winbind_t) (request : request_t)
    (u p : fr_pair_t)
    (hu : x.fr_pair_find_by_da request.request_pairs attr_user_name = some u)
    (hp : x.fr_pair_find_by_da request.request_pairs attr_user_password = some p)
    (hlen : p.vp_length ≠ 0) :
    ((mod_authenticate x inst request).1 = rlm_rcode_t.RLM_MODULE_OK ↔
      x.do_auth_wbclient_pap inst request p = 0) ∧
    (x.do_auth_wbclient_pap inst request p ≠ 0 →
      (mod_authenticate x inst request).1 = rlm_rcode_t.RLM_MODULE_REJECT) ∧
    ((mod_authenticate x inst request).1 = rlm_rcode_t.RLM_MODULE_OK ∨
      (mod_authenticate x inst request).1 = rlm_rcode_t.RLM_MODULE_REJECT) ∧
    (mod_authenticate x inst request).2 = [ext_call.do_auth_wbclient_pap p] := by
  unfold mod_authenticate
  by_cases hb : x.do_auth_wbclient_pap inst request p = 0 <;> simp [hu, hp, hlen, hb]

/-- The sample request (user `alice`, password `secret`) is answered
`RLM_MODULE_OK`, the sample backend returning 0. -/
theorem mod_authenticate_ok_iff_witness :
    (mod_authenticate sample_externs sample_inst sample_request).1 = rlm_rcode_t.RLM_MODULE_OK ∧
    sample_externs.do_auth_wbclient_pap sample_inst sample_request
      { da := attr_user_password, vp_strvalue := "secret".toList } = 0 :=
  ⟨(mod_authenticate_ok_iff sample_externs sample_inst sample_request
      { da := attr_user_name, vp_strvalue := "alice".toList }
      { da := attr_user_password, vp_strvalue := "secret".toList }
      (by decide) (by decide) (by decide)).1.mpr (by decide), by decide⟩

/-- C5: `mod_authorize` returns `RLM_MODULE_OK` exactly when the request has a
User-Password, the instance has a resolved `auth_type`, and
`module_rlm_section_type_set` succeeds for Auth-Type and that `auth_type`;
otherwise it returns `RLM_MODULE_NOOP`; with no User-Password or no
`auth_type` it makes no call to `module_rlm_section_type_set`; and with both
it makes exactly one call, for Auth-Type and that `auth_type`, whatever the
call returns. -/
theorem mod_authorize_ok_iff (x : externs) (inst : rlm_winbind_t) (request : request_t) :
    ((mod_authorize x inst request).1 = rlm_rcode_t.RLM_MODULE_OK ↔
      ∃ vp a, x.fr_pair_find_by_da request.request_pairs attr_user_password = some vp ∧
        inst.auth_type = some a ∧
        x.module_rlm_section_type_set request attr_auth_type a = true) ∧
    ((mod_authorize x inst request).1 ≠ rlm_rcode_t.RLM_MODULE_OK →
      (mod_authorize x inst request).1 = rlm_rcode_t.RLM_MODULE_NOOP) ∧
    ((x.fr_pair_find_by_da request.request_pairs attr_user_password = none ∨
        inst.auth_type = none) →
      (mod_authorize x inst request).2 = []) ∧
    (∀ vp a, x.fr_pair_find_by_da request.request_pairs attr_user_password = some vp →
      inst.auth_type = some a →
      (mod_authorize x inst request).2 =
        [ext_call.module_rlm_section_type_set attr_auth_type a]) ∧
    ((mod_authorize x inst request).1 = rlm_rcode_t.RLM_MODULE_OK →
      ∃ a, inst.auth_type = some a ∧
        (mod_authorize x inst request).2 =
          [ext_call.module_rlm_section_type_set attr_auth_type a]) := by
  unfold mod_authorize
  cases hp : x.fr_pair_find_by_da request.request_pairs attr_user_password with
  | none => simp
  | some vp =>
    cases ha : inst.auth_type with
    | none => simp
    | some a =>
      by_cases hs : x.module_rlm_section_type_set request attr_auth_type a = true
      · simp [hs]
      · simp [hs]

/-- The sample request is authorised with `RLM_MODULE_OK` after one call
setting Auth-Type to `winbind`; a request without User-Password makes no
call. -/
theorem mod_authorize_ok_iff_witness :
    (mod_authorize sample_externs sample_inst sample_request).1 = rlm_rcode_t.RLM_MODULE_OK ∧
    (mod_authorize sample_externs sample_inst sample_request).2 =
      [ext_call.module_rlm_section_type_set attr_auth_type { name := "winbind" }] ∧
    (mod_authorize sample_externs sample_inst { request_pairs := [] }).2 = [] :=
  ⟨(mod_authorize_ok_iff sample_externs sample_inst sample_request).1.mpr
      ⟨{ da := attr_user_password, vp_strvalue := "secret".toList }, { name := "winbind" },
        by decide, by decide, by decide⟩,
   (mod_authorize_ok_iff sample_externs sample_inst sample_request).2.2.2.1
      { da := attr_user_password, vp_strvalue := "secret".toList } { name := "winbind" }
      (by decide) (by decide),
   (mod_authorize_ok_iff sample_externs sample_inst { request_pairs := [] }).2.2.1
      (Or.inl (by decide))⟩

end rlm_winbind


namespace rlm_winbind

/-- Whenever a step before the group comparison fails (no User-Name, a failed
expansion, no connection, an error from `wbcCtxGetGroups`, or no groups),
`winbind_check_group` returns false, the C value 0. -/
theorem winbind_check_group_failure_is_zero (x : externs) (inst : rlm_winbind_t)
    (request : request_t) (name : List Char)
    (hno : ¬ ∃ vp dl u ctx gids,
      x.fr_pair_find_by_da request.request_pairs attr_user_name = some vp ∧
      search_username x inst request vp = some (dl, u) ∧
      x.fr_pool_connection_get inst.wb_pool request = some ctx ∧
      x.wbcCtxGetGroups ctx u = (wbcErr.WBC_ERR_SUCCESS, gids) ∧ gids ≠ []) :
    bool_to_int (winbind_check_group x inst request name) = 0 := by
  have hfalse : winbind_check_group x inst request name = false := by
    cases hf : x.fr_pair_find_by_da request.request_pairs attr_user_name with
    | none => simp only [winbind_check_group, hf]
    | some vp =>
      cases hs : search_username x inst request vp with
      | none => simp only [winbind_check_group, hf, hs]
      | some du =>
        obtain ⟨dl, u⟩ := du
        cases hc : x.fr_pool_connection_get inst.wb_pool request with
        | none => simp only [winbind_check_group, hf, hs, hc]
        | some ctx =>
          rcases hg : x.wbcCtxGetGroups ctx u with ⟨err, gids⟩
          cases err <;> simp only [winbind_check_group, hf, hs, hc, hg]
          cases gids with
          | nil => simp
          | cons g rest =>
            exact absurd ⟨vp, dl, u, ctx, g :: rest, hf, hs, hc, hg, by simp⟩ hno
  simp [hfalse, bool_to_int]

/-- C6: the documented return values of `winbind_check_group` (0 when the user
is in the group, 1 on failure or when the user is not) are not what the
function returns.  In the sample directory `alice` is in group `admins` and
the function returns 1; for a request without a User-Name, a failure, it
returns 0; and `alice` is not in group `taff` and it returns 0. -/
theorem winbind_check_group_member_is_one :
    user_in_group sample_externs { id := 1 } ("DOM".toList ++ [BACKSLASH] ++ "alice".toList)
        "admins".toList = true ∧
    bool_to_int (winbind_check_group sample_externs sample_inst sample_request "admins".toList) = 1 ∧
    sample_externs.fr_pair_find_by_da request_no_user.request_pairs attr_user_name = none ∧
    bool_to_int (winbind_check_group sample_externs sample_inst request_no_user "admins".toList) = 0 ∧
    user_in_group sample_externs { id := 1 } ("DOM".toList ++ [BACKSLASH] ++ "alice".toList)
        "taff".toList = false ∧
    bool_to_int (winbind_check_group sample_externs sample_inst sample_request "taff".toList) = 0 := by
  decide

end rlm_winbind

namespace virtual_server

/-- A section absent from the configuration is not located. -/
theorem find_section_none (server : List conf_section) (entry : virtual_server_compile_t)
    (homit : section_omitted server entry) :
    find_section server entry = none := by
  unfold find_section
  rw [List.find?_eq_none]
  intro cs hcs
  have h := homit cs hcs
  simpa using h

/-- The Section Compiler leaves a slot as it found it when every entry that
writes to the slot is absent from the configuration. -/
theorem compile_sections_loop_slot (server : List conf_section)
    (protocol_methods : List virtual_server_method_t) (o : Option String)
    (entries : List virtual_server_compile_t) :
    ∀ slots slots2 : cache_slots,
      (∀ e ∈ entries, e.offset = o → e.dont_cache = false → find_section server e = none) →
      compile_sections_loop server protocol_methods entries slots = Except.ok slots2 →
      slots2 o = slots o := by
  induction entries with
  | nil =>
    intro slots slots2 _ h
    simp only [compile_sections_loop, Except.ok.injEq] at h
    rw [h]
  | cons e rest ih =>
    intro slots slots2 hab h
    have hrest : ∀ e2 ∈ rest, e2.offset = o → e2.dont_cache = false →
        find_section server e2 = none :=
      fun e2 h2 => hab e2 (List.mem_cons_of_mem _ h2)
    cases hf : find_section server e with
    | none =>
      simp only [compile_sections_loop, hf] at h
      exact ih slots slots2 hrest h
    | some cs =>
      cases hc : compile_section protocol_methods e cs with
      | error err =>
        simp only [compile_sections_loop, hf, hc] at h
        exact Except.noConfusion h
      | ok c =>
        simp only [compile_sections_loop, hf, hc] at h
        by_cases hd : e.dont_cache = true
        · simp only [hd, if_true] at h
          exact ih slots slots2 hrest h
        · have hne : e.offset ≠ o := by
            intro heq
            have := hab e (List.mem_cons_self _ _) heq (by simpa using hd)
            rw [hf] at this
            exact Option.noConfusion this
          simp only [hd] at h
          have := ih (cache_store slots e.offset c) slots2 hrest h
          rw [this]
          unfold cache_store
          simp [Ne.symm hne]

/-- After a successful instantiation, the slot of an omitted section is null
when no other cache-enabled entry writing to that slot is configured. -/
theorem instantiate_slot_null {Conf : Type} (M : fr_process_module_t Conf)
    (server : List conf_section) (protocol_methods : List virtual_server_method_t)
    (conf : Conf) (entry : virtual_server_compile_t) (vs : vs_instance Conf)
    (homit : section_omitted server entry)
    (hslot : ∀ e2 ∈ compile_entries M.compile_list, e2 ≠ entry →
      e2.offset = entry.offset → e2.dont_cache = false → section_omitted server e2)
    (hinst : instantiate M server protocol_methods conf = Except.ok vs) :
    vs.slots entry.offset = none := by
  unfold instantiate at hinst
  cases hc : virtual_server_compile_sections server M.compile_list
      protocol_methods cache_slots_null with
  | error err =>
    rw [hc] at hinst
    exact Except.noConfusion hinst
  | ok slots =>
    rw [hc] at hinst
    simp only [] at hinst
    split_ifs at hinst
    simp only [Except.ok.injEq] at hinst
    rw [← hinst]
    simp only []
    have := compile_sections_loop_slot server protocol_methods entry.offset
      (compile_entries M.compile_list) cache_slots_null slots
      (fun e2 he2 heq hd => by
        by_cases hsame : e2 = entry
        · rw [hsame]
          exact find_section_none server entry homit
        · exact find_section_none server e2 (hslot e2 he2 hsame heq hd))
      hc
    rw [this]
    rfl

/-- In the EAP-AKA table two entries naming the same slot are the same
entry. -/
theorem eap_aka_offset_inj :
    ∀ e ∈ compile_entries process_eap_aka.compile_list,
      ∀ e2 ∈ compile_entries process_eap_aka.compile_list, e2.offset = e.offset → e2 = e := by
  decide

/-- Every entry of the EAP-AKA table has `mod_actions_authorize` as its
default-actions table. -/
theorem eap_aka_entry_actions :
    ∀ e ∈ compile_entries process_eap_aka.compile_list,
      e.actions = some unlang_mod_actions_ref.mod_actions_authorize := by
  decide

/-- For every EAP-AKA virtual server that instantiates, and every section of
the EAP-AKA table that its configuration omits, the section's cache slot is
null after instantiation, and pushing that section invokes the interpreter
zero times and returns the default action of `mod_actions_authorize`. -/
theorem eap_aka_omitted_section (server : List conf_section)
    (protocol_methods : List virtual_server_method_t) (c : process_eap_aka.enum_values)
    (conf : process_eap_aka.eap_aka_sim_process_conf_t)
    (entry : virtual_server_compile_t)
    (vs : vs_instance process_eap_aka.eap_aka_sim_process_conf_t)
    (hentry : entry ∈ compile_entries process_eap_aka.compile_list)
    (homit : section_omitted server entry)
    (hinst : instantiate (process_eap_aka c) server protocol_methods conf = Except.ok vs) :
    vs.slots entry.offset = none ∧
    ∀ (Request : Type) (tables : unlang_mod_actions_ref → unlang_mod_actions_t)
      (interpret : List virtual_server_method_t → Request → Option rlm_rcode_t)
      (request : Request) (top_frame : Bool),
      virtual_server_push tables interpret vs.slots entry request top_frame =
        { rcode := some (tables unlang_mod_actions_ref.mod_actions_authorize).fallback,
          interpreter_calls := 0 } := by
  have hslot : vs.slots entry.offset = none :=
    instantiate_slot_null (process_eap_aka c) server protocol_methods conf entry vs homit
      (fun e2 he2 hne heq _ => absurd (eap_aka_offset_inj entry hentry e2 he2 heq) hne) hinst
  refine ⟨hslot, ?_⟩
  intro Request tables interpret request top_frame
  have hact := eap_aka_entry_actions entry hentry
  simp only [virtual_server_push, hslot, hact, Option.map_some']

end virtual_server
